import Mathlib

/-!
Verification of the MasTec timesheet persistence and validation layer.

This development shallowly embeds the core of the repository:
  src/services/database.js    (schema, CRUD, audit logging, daily totals)
  src/services/validation.js  (the validation engine)
  src/data/dropdown-data.js   (reference data used for existence checks)

JavaScript numbers are modelled as exact rationals (no IEEE floating
point); machine timestamps are integer milliseconds, as in the
JavaScript Date object.  The runtime is assumed to operate in the UTC
timezone, so Date fields and the UTC timeline coincide.
-/

namespace Timesheet

/-! ## JavaScript value model -/

/-- A JavaScript value as far as the validation layer observes it.
Numbers are exact rationals; `vnan` is the number NaN; `vobj` stands
for any non-primitive value (object, array, function). -/
inductive JSValue where
  | vundefined : JSValue
  | vnull : JSValue
  | vbool : Bool → JSValue
  | vnum : ℚ → JSValue
  | vnan : JSValue
  | vstr : String → JSValue
  | vobj : JSValue
deriving DecidableEq, Repr

/-- JavaScript truthiness: `undefined`, `null`, `false`, `0`, `NaN` and
the empty string are falsy; everything else is truthy. -/
def truthy : JSValue → Bool
  | JSValue.vundefined => false
  | JSValue.vnull => false
  | JSValue.vbool b => b
  | JSValue.vnum q => q != 0
  | JSValue.vnan => false
  | JSValue.vstr s => s != ""
  | JSValue.vobj => true

/-- Whether a value is a string (typeof v === "string"). -/
def isStringV : JSValue → Bool
  | JSValue.vstr _ => true
  | _ => false

/-- Value of a decimal digit list, most significant first. -/
def digitsVal (l : List Char) : ℕ :=
  l.foldl (fun a c => 10 * a + (c.toNat - 48)) 0

/-- Whether every character of the list is a decimal digit. -/
def allDigits (l : List Char) : Bool := l.all Char.isDigit

/-- JavaScript parseFloat on an already-trimmed string: an optional
sign, a decimal mantissa and an optional exponent, reading the longest
numeric prefix.  `none` models the NaN result. -/
def jsParseFloat (s : String) : Option ℚ :=
  let p₁ : ℚ × List Char :=
    match s.data with
    | '-' :: rest => (-1, rest)
    | '+' :: rest => (1, rest)
    | cs => (1, cs)
  let intPart := p₁.2.span Char.isDigit
  let fracPart :=
    match intPart.2 with
    | '.' :: rest => rest.span Char.isDigit
    | cs => (([] : List Char), cs)
  if intPart.1.isEmpty && fracPart.1.isEmpty then none
  else
    let mant : ℚ :=
      (digitsVal intPart.1 : ℚ) + (digitsVal fracPart.1 : ℚ) / ((10 : ℚ) ^ fracPart.1.length)
    let expv : ℤ :=
      match fracPart.2 with
      | c :: rest =>
        if c = 'e' ∨ c = 'E' then
          let p₂ : ℤ × List Char :=
            match rest with
            | '-' :: r => (-1, r)
            | '+' :: r => (1, r)
            | r => (1, r)
          let eds := p₂.2.span Char.isDigit
          if eds.1.isEmpty then 0 else p₂.1 * (digitsVal eds.1 : ℤ)
        else 0
      | [] => 0
    some (p₁.1 * mant * (10 : ℚ) ^ expv)

/-- JavaScript Math.round: round half toward positive infinity. -/
def jsRound (q : ℚ) : ℤ := ⌊q + 1 / 2⌋

/-- Math.round(x * 100) / 100, the 2-decimal rounding used by the
hours validators. -/
def round2 (q : ℚ) : ℚ := (jsRound (q * 100) : ℚ) / 100

/-- Whether the pattern list is a prefix of the other list. -/
def prefixOfList : List Char → List Char → Bool
  | [], _ => true
  | _ :: _, [] => false
  | a :: p, b :: l => a = b && prefixOfList p l

/-- Whether the pattern occurs as a contiguous sublist. -/
def hasSubList (p : List Char) : List Char → Bool
  | [] => prefixOfList p []
  | c :: t => prefixOfList p (c :: t) || hasSubList p t

/-- JavaScript String.prototype.includes. -/
def includesStr (s pat : String) : Bool := hasSubList pat.data s.data

/-! ## Civil calendar arithmetic

JavaScript Date stores integer milliseconds since the Unix epoch.
`daysFromCivil` is the standard civil-from-days computation (era of
400 years), agreeing with Date for years 0–9999.  It is linear in the
day-of-month argument, which also reproduces the normalisation Date
applies to out-of-range fields (setFullYear on Feb 29 of a non-leap
target year lands on Mar 1). -/

/-- Day count contributed by the 400-year era structure for a
(shifted) year.  Divisions are Euclidean, which for the positive
divisors used here is floor division. -/
def eraDays (z : ℤ) : ℤ :=
  146097 * (z / 400) + 365 * (z % 400) + (z % 400) / 4 - (z % 400) / 100

/-- Days since 1970-01-01 of a civil date (year, month 1–12, day). -/
def daysFromCivil (y : ℤ) (m d : ℕ) : ℤ :=
  let z : ℤ := if m ≤ 2 then y - 1 else y
  let mp : ℤ := if 3 ≤ m then (m : ℤ) - 3 else (m : ℤ) + 9
  eraDays z + (153 * mp + 2) / 5 + (d : ℤ) - 1 - 719468

def isLeapYear (y : ℤ) : Bool :=
  y % 4 = 0 && (y % 100 != 0 || y % 400 = 0)

def daysInMonth (y : ℤ) (m : ℕ) : ℕ :=
  if m = 2 then (if isLeapYear y then 29 else 28)
  else if m = 4 ∨ m = 6 ∨ m = 9 ∨ m = 11 then 30
  else 31

/-- Whether (y, m, d) denotes a real civil date, i.e. whether the JS
Date constructor accepts the ISO string without yielding Invalid Date. -/
def isValidYMD (y : ℤ) (m d : ℕ) : Bool :=
  1 ≤ m && m ≤ 12 && 1 ≤ d && d ≤ daysInMonth y m

/-- JavaScript Date.prototype.getDay: 0 = Sunday … 6 = Saturday.
1970-01-01 was a Thursday. -/
def dayOfWeek (days : ℤ) : ℤ := (days + 4) % 7

/-- Milliseconds per day. -/
def mspd : ℤ := 86400000

/-! ## Reference data (src/data/dropdown-data.js)

Only the fields the validation and persistence layers consult are
embedded: identifiers, active flags, project status and date window,
cost-code billable flags. -/

/-- employees: (id, active). -/
def employeesData : List (String × Bool) :=
  [("EMP001", true), ("EMP002", true), ("EMP003", true),
   ("EMP004", true), ("EMP005", true), ("EMP010", true)]

def isValidEmployee (id : String) : Bool :=
  employeesData.any (fun e => e.1 == id && e.2)

/-- businessUnits: (code, active). -/
def businessUnitsData : List (String × Bool) :=
  [("220000", true), ("220001", true), ("220002", true),
   ("220003", true), ("220004", true)]

def isValidBusinessUnit (code : String) : Bool :=
  businessUnitsData.any (fun bu => bu.1 == code && bu.2)

structure ProjectRef where
  id : String
  status : String
  startDate : String
  endDate : String
deriving DecidableEq, Repr

def projectsData : List ProjectRef :=
  [⟨"22009017", "Active", "2024-01-01", "2024-12-31"⟩,
   ⟨"22009018", "Active", "2024-02-01", "2024-08-30"⟩,
   ⟨"22009019", "Active", "2024-01-01", "2024-12-31"⟩]

def isValidProject (id : String) : Bool :=
  projectsData.any (fun p => p.id == id && p.status == "Active")

def getProjectDetails (id : String) : Option ProjectRef :=
  projectsData.find? (fun p => p.id == id)

/-- costCodes: (code, billable). -/
def costCodesData : List (String × Bool) :=
  [("ELEC-WIRE", true), ("PROG-PLC", true), ("NET-CONFIG", true),
   ("SYS-TEST", true), ("HVAC-INST", true), ("COMM-SYS", true),
   ("MAINT-INSP", true), ("MAINT-REPL", true), ("TRAVEL", true),
   ("MATERIAL", false), ("TRAINING", false), ("ADMIN", false)]

def isValidCostCode (code : String) : Bool :=
  costCodesData.any (fun cc => cc.1 == code)

def workTypesData : List String :=
  ["REGULAR", "OVERTIME", "DOUBLETIME", "HOLIDAY", "SICK", "VACATION", "PERSONAL"]

def isValidWorkType (id : String) : Bool :=
  workTypesData.any (fun wt => wt == id)

/-! ## Validation engine (src/services/validation.js) -/

/-- Result of a single field validator. -/
structure ValidatorResult where
  isValid : Bool
  errors : List String
  warnings : List String
  sanitized : JSValue
deriving DecidableEq, Repr

/-- The regex ^EMP\d{3,}$. -/
def empIdFormat (s : String) : Bool :=
  match s.data with
  | 'E' :: 'M' :: 'P' :: ds => allDigits ds && ds.length ≥ 3
  | _ => false

/-- The regex of exactly n digits (^\d{n}$). -/
def digitsFormat (n : ℕ) (s : String) : Bool :=
  allDigits s.data && s.data.length == n

/-- The regex ^\d{4}-\d{2}-\d{2}$ together with extraction of the
numeric components. -/
def parseYMD (s : String) : Option (ℤ × ℕ × ℕ) :=
  match s.data with
  | [a, b, c, d, k1, e, f, k2, g, h] =>
    if a.isDigit && b.isDigit && c.isDigit && d.isDigit && k1 = '-' &&
        e.isDigit && f.isDigit && k2 = '-' && g.isDigit && h.isDigit then
      some ((digitsVal [a, b, c, d] : ℤ), digitsVal [e, f], digitsVal [g, h])
    else none
  | _ => none

/-- The current instant, as the UTC civil date plus the time of day in
milliseconds.  Stands for the `new Date()` calls in validateDate. -/
structure Clock where
  y : ℤ
  m : ℕ
  d : ℕ
  tod : ℤ
deriving Repr

def nowDays (c : Clock) : ℤ := daysFromCivil c.y c.m c.d

def nowMs (c : Clock) : ℤ := nowDays c * mspd + c.tod

/-- oneYearAgo: setFullYear(year - 1) keeps month, day and time of
day; daysFromCivil reproduces the Feb 29 → Mar 1 normalisation. -/
def oneYearAgoMs (c : Clock) : ℤ := daysFromCivil (c.y - 1) c.m c.d * mspd + c.tod

/-- thirtyDaysFromNow: setDate(getDate() + 30) adds exactly 30 days. -/
def thirtyAheadMs (c : Clock) : ℤ := nowMs c + 30 * mspd

/-- The business-window errors of validateDate: the parsed date
compared, as an instant, against oneYearAgo and thirtyDaysFromNow. -/
def dateWindowErrors (c : Clock) (y : ℤ) (m d : ℕ) : List String :=
  (if daysFromCivil y m d * mspd < oneYearAgoMs c then
     ["Date cannot be more than one year in the past"]
   else []) ++
  (if daysFromCivil y m d * mspd > thirtyAheadMs c then
     ["Date cannot be more than 30 days in the future"]
   else [])

/-- The weekend warning of validateDate (getDay 0 or 6). -/
def dateWeekendWarns (y : ℤ) (m d : ℕ) : List String :=
  if dayOfWeek (daysFromCivil y m d) = 0 ∨ dayOfWeek (daysFromCivil y m d) = 6 then
    ["Date falls on a weekend"]
  else []

/-- Result of validateDate on a trimmed string that matched the format
regex and parsed to a real date. -/
def dateValidRes (c : Clock) (y : ℤ) (m d : ℕ) (s : String) : ValidatorResult :=
  ⟨(dateWindowErrors c y m d).isEmpty, dateWindowErrors c y m d,
   dateWeekendWarns y m d, JSValue.vstr s⟩

/-- validateDate on the trimmed string. -/
def validateDateStr (c : Clock) (s : String) : ValidatorResult :=
  match parseYMD s with
  | none => ⟨false, ["Date must be in YYYY-MM-DD format"], [], JSValue.vstr s⟩
  | some (y, m, d) =>
    if isValidYMD y m d then dateValidRes c y m d s
    else ⟨false, ["Invalid date"], [], JSValue.vstr s⟩

def validateDate (c : Clock) (v : JSValue) : ValidatorResult :=
  match v with
  | JSValue.vstr s0 => validateDateStr c s0.trim
  | w => ⟨false, ["Date must be a string"], [], w⟩

/-- Whether |q * 4 - Math.round(q * 4)| > 0.001 (not on a quarter
hour, tolerance 0.001). -/
def quarterOff (q : ℚ) : Bool := |q * 4 - (jsRound (q * 4) : ℚ)| > 1 / 1000

/-- parseFloat(hours.trim()) for the hours validator: an unparsable
string is NaN. -/
def hoursStrCoerce (s : String) : JSValue :=
  match jsParseFloat s.trim with
  | some q => JSValue.vnum q
  | none => JSValue.vnan

/-- The string-to-number coercion step of validateHours. -/
def hoursCoerce : JSValue → JSValue
  | JSValue.vstr s => hoursStrCoerce s
  | w => w

/-- The range checks of validateHours once a number is in hand,
already rounded to 2 decimals. -/
def hoursChecked (q : ℚ) : ValidatorResult :=
  let errs :=
    (if q < 0 then ["Hours cannot be negative"] else []) ++
    (if q > 24 then ["Hours cannot exceed 24 per day"] else [])
  let warns :=
    (if q > 16 then ["Unusually high hours - please verify"] else []) ++
    (if quarterOff q then ["Hours should be in 15-minute increments (0.25)"] else [])
  ⟨errs.isEmpty, errs, warns, JSValue.vnum q⟩

def validateHours (v : JSValue) : ValidatorResult :=
  match hoursCoerce v with
  | JSValue.vnum q0 => hoursChecked (round2 q0)
  | _ => ⟨false, ["Hours must be a valid number"], [], JSValue.vnum 0⟩

/-- value || 0, the first coercion of validateBreakHours. -/
def jsOrZero (v : JSValue) : JSValue :=
  if truthy v then v else JSValue.vnum 0

/-- parseFloat(breakHours.trim()) || 0: the string branch of
validateBreakHours (NaN and -0 both collapse to 0). -/
def breakStrCoerce (s : String) : JSValue :=
  match jsParseFloat s.trim with
  | some q => if q = 0 then JSValue.vnum 0 else JSValue.vnum q
  | none => JSValue.vnum 0

/-- sanitized after the two coercion statements of validateBreakHours. -/
def breakSan (v : JSValue) : JSValue :=
  match v with
  | JSValue.vstr s => breakStrCoerce s
  | _ => jsOrZero v

/-- typeof sanitized !== number || isNaN(sanitized): non-numbers are
silently replaced by 0. -/
def numericOrZero : JSValue → ℚ
  | JSValue.vnum q => q
  | _ => 0

def validateBreakHours (v : JSValue) : ValidatorResult :=
  let q := round2 (numericOrZero (breakSan v))
  let errs :=
    (if q < 0 then ["Break hours cannot be negative"] else []) ++
    (if q > 4 then ["Break hours cannot exceed 4 hours per day"] else [])
  ⟨errs.isEmpty, errs, [], JSValue.vnum q⟩

/-- sanitized of validateWorkType: workType || REGULAR, then
trim().toUpperCase() when the input is a string. -/
def workTypeSan (v : JSValue) : JSValue :=
  match v with
  | JSValue.vstr s => JSValue.vstr (s.trim.toUpper)
  | w => if truthy w then w else JSValue.vstr "REGULAR"

/-- isValidWorkType on a JavaScript value: a non-string is never a
known work-type id. -/
def isValidWorkTypeV : JSValue → Bool
  | JSValue.vstr s => isValidWorkType s
  | _ => false

def validateWorkType (v : JSValue) : ValidatorResult :=
  let s1 := workTypeSan v
  ⟨isValidWorkTypeV s1, if isValidWorkTypeV s1 then [] else ["Invalid work type"], [], s1⟩

/-- trim().toUpperCase() applied when the cost code is a string. -/
def costCodeSan : JSValue → JSValue
  | JSValue.vstr s => JSValue.vstr (s.trim.toUpper)
  | w => w

/-- isValidCostCode on a JavaScript value. -/
def isValidCostCodeV : JSValue → Bool
  | JSValue.vstr s => isValidCostCode s
  | _ => false

def validateCostCode (v : JSValue) : ValidatorResult :=
  if ¬ truthy v then ⟨true, [], [], JSValue.vnull⟩
  else
    let s1 := costCodeSan v
    ⟨isValidCostCodeV s1, if isValidCostCodeV s1 then [] else ["Cost code not found in system"],
     [], s1⟩

/-- replace(/[<>]/g, ""). -/
def stripAngles (s : String) : String :=
  String.mk (s.data.filter (fun c => c ≠ '<' && c ≠ '>'))

/-- validateDescription can throw: on a truthy non-string value the
final sanitized.replace call is a TypeError, which the validate
driver's try/catch turns into a service error. -/
def validateDescription (v : JSValue) : Except Unit ValidatorResult :=
  match v with
  | JSValue.vstr s =>
    let t := s.trim
    let errs := if t.length > 500 then ["Description cannot exceed 500 characters"] else []
    let warns := if t.length = 0 then ["Description is empty - consider adding details"] else []
    Except.ok ⟨errs.isEmpty, errs, warns, JSValue.vstr (stripAngles t)⟩
  | w =>
    if truthy w then Except.error ()
    else
      -- description || "" makes sanitized the empty string
      Except.ok ⟨true, [], ["Description is empty - consider adding details"], JSValue.vstr ""⟩

def validateEmployeeId (v : JSValue) : ValidatorResult :=
  match v with
  | JSValue.vstr s =>
    let t := s.trim.toUpper
    let errs :=
      (if empIdFormat t then [] else ["Employee ID must be in format EMP### (e.g., EMP001)"]) ++
      (if isValidEmployee t then [] else ["Employee ID not found in system"])
    ⟨errs.isEmpty, errs, [], JSValue.vstr t⟩
  | w => ⟨false, ["Employee ID must be a string"], [], w⟩

def validateBusinessUnitCode (v : JSValue) : ValidatorResult :=
  match v with
  | JSValue.vstr s =>
    let t := s.trim
    let errs :=
      (if digitsFormat 6 t then [] else ["Business unit code must be 6 digits (e.g., 220000)"]) ++
      (if isValidBusinessUnit t then [] else ["Business unit code not found in system"])
    ⟨errs.isEmpty, errs, [], JSValue.vstr t⟩
  | w => ⟨false, ["Business unit code must be a string"], [], w⟩

def validateProjectId (v : JSValue) : ValidatorResult :=
  match v with
  | JSValue.vstr s =>
    let t := s.trim
    let errs :=
      (if digitsFormat 8 t then [] else ["Project ID must be 8 digits (e.g., 22009017)"]) ++
      (if isValidProject t then [] else ["Project ID not found or inactive"])
    ⟨errs.isEmpty, errs, [], JSValue.vstr t⟩
  | w => ⟨false, ["Project ID must be a string"], [], w⟩

/-- trim().replace(/\s+/g, " "): collapse whitespace runs to single
spaces.  The flag records whether the previous character was
whitespace. -/
def collapseWSAux : List Char → Bool → List Char
  | [], _ => []
  | c :: t, prevWS =>
    if c.isWhitespace then
      (if prevWS then collapseWSAux t true else ' ' :: collapseWSAux t true)
    else c :: collapseWSAux t false

def collapseWS (s : String) : String := String.mk (collapseWSAux s.data false)

/-- charAt(0).toUpperCase() + slice(1).toLowerCase() on each
space-separated word. -/
def titleCase (s : String) : String :=
  String.intercalate " "
    ((s.split (fun c => c = ' ')).map (fun w =>
      match w.data with
      | [] => ""
      | c :: rest => String.mk (c.toUpper :: rest.map Char.toLower)))

/-- The character class [a-zA-Z\s\-'\.] (39 is the apostrophe). -/
def allowedNameChar (c : Char) : Bool :=
  c.isAlpha || c.isWhitespace || c = '-' || c.toNat == 39 || c = '.'

def validateName (v : JSValue) : ValidatorResult :=
  match v with
  | JSValue.vstr s =>
    let t := titleCase (collapseWS s.trim)
    let errs :=
      (if t.length < 2 then ["Name must be at least 2 characters long"] else []) ++
      (if t.length > 100 then ["Name cannot exceed 100 characters"] else []) ++
      (if t.data.length > 0 && t.data.all allowedNameChar then []
       else ["Name can only contain letters, spaces, hyphens, apostrophes, and periods"])
    ⟨errs.isEmpty, errs, [], JSValue.vstr t⟩
  | w => ⟨false, ["Name must be a string"], [], w⟩

def validRolesData : List String :=
  ["Field Technician", "Senior Technician", "Lead Technician",
   "Electrician", "Senior Electrician", "Master Electrician",
   "Controls Engineer", "Senior Engineer", "Principal Engineer",
   "Project Manager", "Senior Project Manager",
   "Field Supervisor", "Operations Manager", "Division Manager"]

def validateRole (v : JSValue) : ValidatorResult :=
  match v with
  | JSValue.vstr s =>
    let t := s.trim
    let warns :=
      if validRolesData.contains t then []
      else ["Role \"" ++ t ++ "\" is not in the standard role list"]
    ⟨true, [], warns, JSValue.vstr t⟩
  | w => ⟨false, ["Role must be a string"], [], w⟩

def validGradesData : List String :=
  ["T1", "T2", "T3", "T4", "E1", "E2", "E3", "E4", "S1", "S2", "M1", "M2", "M3"]

def validatePayGrade (v : JSValue) : ValidatorResult :=
  match v with
  | JSValue.vstr s =>
    if truthy (JSValue.vstr s) then
      let t := s.trim.toUpper
      let warns :=
        if validGradesData.contains t then []
        else ["Pay grade \"" ++ t ++ "\" is not in the standard grade list"]
      ⟨true, [], warns, JSValue.vstr t⟩
    else ⟨true, [], [], JSValue.vstr s⟩
  | w => ⟨true, [], [], w⟩

def validContractTypes : List String := ["Time & Materials", "Fixed Bid", "Unit Price"]

def validateContractType (v : JSValue) : ValidatorResult :=
  match v with
  | JSValue.vstr s =>
    let t := s.trim
    let errs :=
      if validContractTypes.contains t then []
      else ["Invalid contract type. Must be: Time & Materials, Fixed Bid, or Unit Price"]
    ⟨errs.isEmpty, errs, [], JSValue.vstr t⟩
  | w => ⟨false, ["Contract type must be a string"], [], w⟩

def validateProjectName (v : JSValue) : ValidatorResult :=
  match v with
  | JSValue.vstr s =>
    let t := s.trim
    let errs :=
      (if t.length < 3 then ["Project name must be at least 3 characters long"] else []) ++
      (if t.length > 200 then ["Project name cannot exceed 200 characters"] else [])
    ⟨errs.isEmpty, errs, [], JSValue.vstr t⟩
  | w => ⟨false, ["Project name must be a string"], [], w⟩

/-! The validate driver. -/

/-- A record under validation, as the assoc list of its own
properties; a missing key reads as undefined. -/
abbrev AList := List (String × JSValue)

def getField (data : AList) (k : String) : JSValue :=
  match data.find? (fun p => p.1 == k) with
  | some p => p.2
  | none => JSValue.vundefined

def setField (data : AList) (k : String) (v : JSValue) : AList :=
  if (data.find? (fun p => p.1 == k)).isSome then
    data.map (fun p => if p.1 == k then (p.1, v) else p)
  else data ++ [(k, v)]

structure Rules where
  required : List String
  validators : List (String × (JSValue → Except Unit ValidatorResult))

def pureV (f : JSValue → ValidatorResult) : JSValue → Except Unit ValidatorResult :=
  fun v => Except.ok (f v)

/-- The employee rules of setupValidationRules, in insertion order. -/
def employeeRules : Rules :=
  ⟨["id", "name", "role", "businessUnit"],
   [("id", pureV validateEmployeeId), ("name", pureV validateName),
    ("role", pureV validateRole), ("businessUnit", pureV validateBusinessUnitCode),
    ("payGrade", pureV validatePayGrade)]⟩

/-- The timesheet_entry rules of setupValidationRules. -/
def timesheetRules (c : Clock) : Rules :=
  ⟨["employeeId", "date", "businessUnit", "projectId", "hoursWorked"],
   [("employeeId", pureV validateEmployeeId), ("date", pureV (validateDate c)),
    ("businessUnit", pureV validateBusinessUnitCode), ("projectId", pureV validateProjectId),
    ("hoursWorked", pureV validateHours), ("breakHours", pureV validateBreakHours),
    ("workType", pureV validateWorkType), ("costCode", pureV validateCostCode),
    ("description", validateDescription)]⟩

/-- The project rules of setupValidationRules. -/
def projectRules (c : Clock) : Rules :=
  ⟨["id", "name", "businessUnit", "contractType"],
   [("id", pureV validateProjectId), ("name", pureV validateProjectName),
    ("businessUnit", pureV validateBusinessUnitCode), ("contractType", pureV validateContractType),
    ("startDate", pureV (validateDate c)), ("endDate", pureV (validateDate c))]⟩

/-- The validation-rule registry (this.rules.get(type)). -/
def rulesFor (c : Clock) (ty : String) : Option Rules :=
  if ty = "employee" then some employeeRules
  else if ty = "timesheet_entry" then some (timesheetRules c)
  else if ty = "project" then some (projectRules c)
  else none

def formatFieldName (f : String) : String :=
  if f = "employeeId" then "Employee ID"
  else if f = "businessUnit" then "Business Unit"
  else if f = "projectId" then "Project ID"
  else if f = "hoursWorked" then "Hours Worked"
  else if f = "breakHours" then "Break Hours"
  else if f = "workType" then "Work Type"
  else if f = "costCode" then "Cost Code"
  else if f = "contractType" then "Contract Type"
  else if f = "payGrade" then "Pay Grade"
  else f.capitalize

/-- The required-field pass: a field is reported missing exactly when
its value is falsy (the code tests !data[field] || data[field] === '',
and the empty string is itself falsy). -/
def requiredErrors (rules : Rules) (data : AList) : List String :=
  rules.required.filterMap (fun f =>
    if truthy (getField data f) then none
    else some (formatFieldName f ++ " is required"))

/-- The guard on the per-field validator loop: a validator runs only
when the value is not undefined, null or the empty string. -/
def skipVal (v : JSValue) : Bool :=
  v == JSValue.vundefined || v == JSValue.vnull || v == JSValue.vstr ""

/-- The per-field validator loop.  Reads each field from the original
data, accumulates errors (when the validator reports invalid) and
warnings, and overwrites the field in the sanitized copy.  A thrown
validator aborts the loop. -/
def runValidators (data0 : AList) :
    List (String × (JSValue → Except Unit ValidatorResult)) →
    List String → List String → AList →
    Except Unit (List String × List String × AList)
  | [], es, ws, san => Except.ok (es, ws, san)
  | (f, vf) :: rest, es, ws, san =>
    if skipVal (getField data0 f) then runValidators data0 rest es ws san
    else
      match vf (getField data0 f) with
      | Except.error e => Except.error e
      | Except.ok r =>
        runValidators data0 rest
          (es ++ (if r.isValid then [] else r.errors))
          (ws ++ r.warnings)
          (setField san f r.sanitized)

/-- Numeric reading of (v || 0) as used by the cross-field checks:
after sanitization hoursWorked and breakHours are numbers or falsy. -/
def numOr0 (v : JSValue) : ℚ :=
  if truthy v then (match v with | JSValue.vnum q => q | _ => 0) else 0

/-- new Date(string) on an ISO string: the instant at UTC midnight,
or none for Invalid Date. -/
def parseDateStrMs (s : String) : Option ℤ :=
  match parseYMD s with
  | some (y, m, d) => if isValidYMD y m d then some (daysFromCivil y m d * mspd) else none
  | none => none

/-- new Date(value) as used by the cross-field project-window check.
Only ISO strings are modelled (none = Invalid Date); the theorems
below evaluate this function on ISO strings only. -/
def jsNewDateMs : JSValue → Option ℤ
  | JSValue.vstr s => parseDateStrMs s
  | _ => none

/-- Comparisons against Invalid Date are false, like NaN comparisons. -/
def ltOpt (a b : Option ℤ) : Bool :=
  match a, b with
  | some x, some y => x < y
  | _, _ => false

def gtOpt (a b : Option ℤ) : Bool :=
  match a, b with
  | some x, some y => x > y
  | _, _ => false

/-- getProjectDetails(sanitized.projectId): a non-string never equals
a project id under strict equality. -/
def projectOfV : JSValue → Option ProjectRef
  | JSValue.vstr s => getProjectDetails s
  | _ => none

/-- The project date-window errors and warnings of
validateCrossFields. -/
def projectWindow (p : Option ProjectRef) (dateV : JSValue) : List String × List String :=
  match p with
  | some pr =>
    ((if ltOpt (jsNewDateMs dateV) (jsNewDateMs (JSValue.vstr pr.startDate)) then
        ["Date is before project start date (" ++ pr.startDate ++ ")"]
      else []),
     (if gtOpt (jsNewDateMs dateV) (jsNewDateMs (JSValue.vstr pr.endDate)) then
        ["Date is after project end date (" ++ pr.endDate ++ ")"]
      else []))
  | none => ([], [])

/-- validateCrossFields, operating on the sanitized record. -/
def crossFields (ty : String) (data : AList) : List String × List String :=
  if ty = "timesheet_entry" then
    let total := numOr0 (getField data "hoursWorked") + numOr0 (getField data "breakHours")
    let e1 := if total > 24 then ["Total work and break hours cannot exceed 24 hours per day"] else []
    let pw :=
      if truthy (getField data "projectId") && truthy (getField data "date") then
        projectWindow (projectOfV (getField data "projectId")) (getField data "date")
      else ([], [])
    let w3 :=
      if getField data "workType" == JSValue.vstr "OVERTIME" &&
          numOr0 (getField data "hoursWorked") ≤ 8 then
        ["Overtime work type selected but hours are 8 or less"]
      else []
    let w4 :=
      if getField data "workType" == JSValue.vstr "DOUBLETIME" &&
          numOr0 (getField data "hoursWorked") ≤ 12 then
        ["Double time work type selected but hours are 12 or less"]
      else []
    (e1 ++ pw.1, pw.2 ++ w3 ++ w4)
  else ([], [])

/-- [...new Set(list)]: deduplicate keeping first occurrences. -/
def dedupKeep (l : List String) : List String :=
  l.foldl (fun acc x => if acc.contains x then acc else acc ++ [x]) []

structure VOut where
  isValid : Bool
  errors : List String
  warnings : List String
  sanitized : AList
deriving DecidableEq, Repr

/-- The aggregation step of validate once the field loop finished
without throwing. -/
def validateAggregate (ty : String) (reqErrs : List String)
    (fieldRes : List String × List String × AList) : VOut :=
  let cr := crossFields ty fieldRes.2.2
  let errors := dedupKeep (reqErrs ++ fieldRes.1 ++ cr.1)
  let warnings := dedupKeep (fieldRes.2.1 ++ cr.2)
  ⟨errors.isEmpty, errors, warnings, fieldRes.2.2⟩

/-- validate for a registered kind.  A throw anywhere in the field
loop is caught and reported as a generic service error with the
unsanitized data. -/
def validateKnown (ty : String) (data : AList) (rules : Rules) : VOut :=
  match runValidators data rules.validators [] [] data with
  | Except.error _ => ⟨false, ["Validation service error occurred"], [], data⟩
  | Except.ok res => validateAggregate ty (requiredErrors rules data) res

/-- The main validate(type, data) entry point. -/
def validate (c : Clock) (ty : String) (data : AList) : VOut :=
  match rulesFor c ty with
  | none => ⟨false, ["Unknown validation type: " ++ ty], [], data⟩
  | some rules => validateKnown ty data rules

/-! ## Persistence layer (src/services/database.js)

Timesheet entries, schema semantics:

The timesheet_entries table is modelled at the level the claims need:
the composite UNIQUE constraint with SQL semantics (NULL compares
unequal to everything, including NULL, so rows with a NULL component
never conflict), the DEFAULT 'REGULAR' on work_type, and the stored
generated column billable_hours, materialized from the cost_codes
table as it stands at write time. -/

/-- A candidate row for INSERT INTO timesheet_entries.  An absent
optional column is `none`. -/
structure EntryInput where
  employee_id : String
  date : String
  project_id : String
  job_id : Option String
  work_order_id : Option String
  work_type : Option String
  cost_code : Option String
  hours_worked : ℚ
  break_hours : ℚ
deriving DecidableEq, Repr

/-- A stored row: work_type has received its column default and
billable_hours has been materialized. -/
structure StoredEntry where
  employee_id : String
  date : String
  project_id : String
  job_id : Option String
  work_order_id : Option String
  work_type : String
  cost_code : Option String
  hours_worked : ℚ
  break_hours : ℚ
  billable_hours : ℚ
deriving DecidableEq, Repr

/-- cost_code IN (SELECT code FROM cost_codes WHERE billable = 1);
a NULL cost_code is not IN any set. -/
def isBillableCode (codes : List (String × Bool)) : Option String → Bool
  | some c => codes.any (fun cc => cc.1 == c && cc.2)
  | none => false

/-- Apply the work_type column default and compute the stored
generated column billable_hours. -/
def materialize (codes : List (String × Bool)) (e : EntryInput) : StoredEntry :=
  { employee_id := e.employee_id
    date := e.date
    project_id := e.project_id
    job_id := e.job_id
    work_order_id := e.work_order_id
    work_type := e.work_type.getD "REGULAR"
    cost_code := e.cost_code
    hours_worked := e.hours_worked
    break_hours := e.break_hours
    billable_hours := if isBillableCode codes e.cost_code then e.hours_worked else 0 }

/-- SQL equality as used inside a UNIQUE index: NULL is distinct from
every value, including NULL. -/
def sqlNullEq : Option String → Option String → Bool
  | some a, some b => a == b
  | _, _ => false

/-- Whether two stored rows collide on the composite UNIQUE key
(employee_id, date, project_id, job_id, work_order_id, work_type). -/
def uniqueConflict (a b : StoredEntry) : Bool :=
  a.employee_id == b.employee_id && a.date == b.date && a.project_id == b.project_id &&
    sqlNullEq a.job_id b.job_id && sqlNullEq a.work_order_id b.work_order_id &&
    a.work_type == b.work_type

/-- INSERT INTO timesheet_entries: fails (and the insert method
rethrows) exactly when the materialized row collides with an existing
row on the UNIQUE key. -/
def insertEntry (codes : List (String × Bool)) (st : List StoredEntry) (e : EntryInput) :
    Except String (List StoredEntry) :=
  let row := materialize codes e
  if st.any (fun r => uniqueConflict r row) then
    Except.error "UNIQUE constraint failed: timesheet_entries"
  else Except.ok (st ++ [row])

/-- Timesheet states reachable by successful inserts from the empty
table. -/
inductive ReachableEntries (codes : List (String × Bool)) : List StoredEntry → Prop
  | nil : ReachableEntries codes []
  | ins {st st2 : List StoredEntry} {e : EntryInput} :
      ReachableEntries codes st → insertEntry codes st e = Except.ok st2 →
      ReachableEntries codes st2

/-- Result shape of calculateDailyTotals.  The premium fields are
absent (`none`) in the default object the catch branch returns. -/
structure DailyTotals where
  total_hours : ℚ
  total_billable : ℚ
  total_breaks : ℚ
  entry_count : ℕ
  regular_hours : Option ℚ
  overtime_hours : Option ℚ
  doubletime_hours : Option ℚ
deriving DecidableEq, Repr

/-- The object returned when the aggregate query fails. -/
def emptyTotals : DailyTotals := ⟨0, 0, 0, 0, none, none, none⟩

/-- calculateDailyTotals(employeeId, date): the aggregate SELECT sums
hours_worked, billable_hours and break_hours and counts rows for that
employee and day, then derives the premium tiers from the daily total
alone. -/
def calculateDailyTotals (st : List StoredEntry) (eid date : String) : DailyTotals :=
  let rows := st.filter (fun r => r.employee_id == eid && r.date == date)
  let total := (rows.map (fun r => r.hours_worked)).sum
  { total_hours := total
    total_billable := (rows.map (fun r => r.billable_hours)).sum
    total_breaks := (rows.map (fun r => r.break_hours)).sum
    entry_count := rows.length
    regular_hours := some (min total 8)
    overtime_hours := some (max 0 (min (total - 8) 4))
    doubletime_hours := some (max 0 (total - 12)) }

/-- calculateDailyTotals with its try/catch: a failing aggregate query
degrades to the zero-totals object instead of throwing. -/
def calculateDailyTotalsSafe (st : List StoredEntry) (eid date : String) (fault : Bool) :
    DailyTotals :=
  if fault then emptyTotals else calculateDailyTotals st eid date

/-! Generic CRUD with audit logging.

Rows are JavaScript records; the store keeps (table, id, row) triples.
`execFault` models a failure of the underlying store on the statement
of the business write; `auditOk` models whether the audit-log insert
succeeds (its failure is caught inside logAudit and absorbed). -/

/-- One row of the audit_log table. -/
structure AuditRec where
  table_name : String
  record_id : String
  action : String
  old_values : Option AList
  new_values : Option AList
  user_id : Option String
deriving DecidableEq, Repr

structure GState where
  rows : List (String × String × AList)
  audit : List AuditRec
deriving DecidableEq, Repr

/-- SELECT * FROM table WHERE id = ? LIMIT 1, with the read-path
catch: any failure degrades to null. -/
def getById (st : GState) (tbl id : String) : Option AList :=
  match st.rows.find? (fun p => p.1 == tbl && p.2.1 == id) with
  | some p => some p.2.2
  | none => none

/-- getById with an underlying-store fault: the catch returns null. -/
def getByIdSafe (st : GState) (tbl id : String) (fault : Bool) : Option AList :=
  if fault then none else getById st tbl id

/-- {...oldRecord, ...data}: keys of the old record in order, patched
values winning, new keys appended. -/
def jsMerge (old patch : AList) : AList :=
  old.map (fun kv =>
    (kv.1, match patch.find? (fun p => p.1 == kv.1) with
           | some p => p.2
           | none => kv.2)) ++
    patch.filter (fun kv => (old.find? (fun p => p.1 == kv.1)).isNone)

/-- The UPDATE statement: set each patched column and bump
updated_at. -/
def applyPatchRow (old patch : AList) (nowTs : String) : AList :=
  setField (jsMerge old patch) "updated_at" (JSValue.vstr nowTs)

/-- record_id for the audit row: insertId || data.id, stringified. -/
def recordIdOf (data : AList) : String :=
  match getField data "id" with
  | JSValue.vstr s => s
  | _ => ""

/-- logAudit: appends one audit_log row; a failure is caught inside
and absorbed, leaving the log unchanged. -/
def logAudit (st : GState) (rec : AuditRec) (auditOk : Bool) : GState :=
  if auditOk then { st with audit := st.audit ++ [rec] } else st

/-- insert(table, data, userId): runs the INSERT, then logs an INSERT
audit record with the new snapshot; store failures are rethrown. -/
def insertRow (st : GState) (tbl : String) (data : AList) (userId : Option String)
    (execFault auditOk : Bool) : Except String (GState × Bool) :=
  if execFault then Except.error "execution error"
  else
    let rid := recordIdOf data
    let st1 : GState := { st with rows := st.rows ++ [(tbl, rid, data)] }
    Except.ok (logAudit st1 ⟨tbl, rid, "INSERT", none, some data, userId⟩ auditOk, true)

/-- update(table, id, data, userId): reads the existing row first,
runs the UPDATE, and when a row changed logs an UPDATE audit record
with the pre-read row as "old" and {...oldRecord, ...data} as "new";
returns whether any row changed.  Store failures are rethrown. -/
def updateRow (st : GState) (tbl id : String) (patch : AList) (userId : Option String)
    (nowTs : String) (execFault auditOk : Bool) : Except String (GState × Bool) :=
  let oldRecord := getById st tbl id
  if execFault then Except.error "execution error"
  else
    match oldRecord with
    | none => Except.ok (st, false)
    | some old =>
      let newRow := applyPatchRow old patch nowTs
      let st1 : GState :=
        { st with rows := st.rows.map (fun p => if p.1 == tbl && p.2.1 == id then (p.1, p.2.1, newRow) else p) }
      Except.ok (logAudit st1 ⟨tbl, id, "UPDATE", some old, some (jsMerge old patch), userId⟩ auditOk, true)

/-- delete(table, id, userId): reads the row for its snapshot, runs
the DELETE, and when a row was deleted logs a DELETE audit record with
a null "new" snapshot. -/
def deleteRow (st : GState) (tbl id : String) (userId : Option String)
    (execFault auditOk : Bool) : Except String (GState × Bool) :=
  let record := getById st tbl id
  if execFault then Except.error "execution error"
  else
    match record with
    | none => Except.ok (st, false)
    | some old =>
      let st1 : GState :=
        { st with rows := st.rows.filter (fun p => ¬ (p.1 == tbl && p.2.1 == id)) }
      Except.ok (logAudit st1 ⟨tbl, id, "DELETE", some old, none, userId⟩ auditOk, true)

/-- getAll(table, filters): equality-filtered SELECT; the catch
returns the empty collection on any failure.  Ordering and paging
options do not affect the error behaviour and are omitted. -/
def getAll (st : GState) (tbl : String) (filters : AList) (fault : Bool) : List AList :=
  if fault then []
  else
    (st.rows.filter (fun p => p.1 == tbl)).map (fun p => p.2.2)
      |>.filter (fun r => filters.all (fun kv => getField r kv.1 == kv.2))

/-- Filters of getTimesheetEntries; an absent filter is none. -/
structure TsFilters where
  employeeId : Option String := none
  date : Option String := none
  dateFrom : Option String := none
  dateTo : Option String := none
deriving Repr

def matchesTsFilters (f : TsFilters) (r : StoredEntry) : Bool :=
  (match f.employeeId with | some v => r.employee_id == v | none => true) &&
  (match f.date with | some v => r.date == v | none => true) &&
  (match f.dateFrom with | some v => decide (v ≤ r.date) | none => true) &&
  (match f.dateTo with | some v => decide (r.date ≤ v) | none => true)

/-- getTimesheetEntries(filters): filtered listing of timesheet rows;
the catch returns the empty collection on any failure.  The LEFT JOIN
display columns only denormalize reference data and are omitted. -/
def getTimesheetEntries (st : List StoredEntry) (f : TsFilters) (fault : Bool) :
    List StoredEntry :=
  if fault then [] else st.filter (matchesTsFilters f)

/-! The execute statement gate. -/

/-- execute(sql, params): rejects calls on an uninitialized store
unless the statement text contains the substring "CREATE"; any
underlying failure is rethrown to the caller. -/
def executeStmt (isInitialized : Bool) (sql : String)
    (underlying : Except String (List AList)) : Except String (List AList) :=
  if ¬ isInitialized ∧ ¬ includesStr sql "CREATE" then
    Except.error "Database not initialized"
  else underlying

/-- Modelled from the spec: "statements that themselves create
schema", the exemption as the claim words it — the schema-creating
statements of this repository are the CREATE TABLE and CREATE INDEX
statements.  Used only to compare the claim's wording against
executeStmt. -/
def createsSchemaSpec (sql : String) : Bool :=
  prefixOfList "CREATE TABLE".data sql.data || prefixOfList "CREATE INDEX".data sql.data

/-! ## Concrete sample data used by witnesses and counterexamples -/

/-- Inputs whose value is not numeric: not a number, and if a string,
one parseFloat cannot read a number from.  (NaN counts as invalid
here, as in the source's isNaN check.) -/
def nonNumericBreakInput (v : JSValue) : Bool :=
  match v with
  | JSValue.vnum _ => false
  | JSValue.vstr s => (jsParseFloat s.trim).isNone
  | _ => true

/-- A fixed current instant: 2024-06-15, noon UTC. -/
def clk0 : Clock := ⟨2024, 6, 15, 43200000⟩

/-- An entry with no job and no work order: its UNIQUE-key components
contain NULLs. -/
def dupEntry : EntryInput :=
  ⟨"EMP001", "2024-01-15", "22009017", none, none, some "REGULAR", none, 8, 0⟩

/-- An entry with every UNIQUE-key component present. -/
def fullEntry : EntryInput :=
  ⟨"EMP001", "2024-01-15", "22009017", some "J001", some "WO001", some "REGULAR",
   some "ELEC-WIRE", 8, 0⟩

/-- The same entry with a non-billable cost code. -/
def fullEntryNB : EntryInput :=
  ⟨"EMP001", "2024-01-15", "22009017", some "J001", some "WO001", some "REGULAR",
   some "MATERIAL", 8, 0⟩

def sampleRow (hrs : ℚ) (wt : String) : StoredEntry :=
  ⟨"EMP001", "2024-03-04", "22009017", some "J001", some "WO001", wt, none, hrs, 0, 0⟩

/-- Two entries totalling 10 hours for one employee-day. -/
def day10 : List StoredEntry := [sampleRow 6 "REGULAR", sampleRow 4 "OVERTIME"]

/-- Two entries totalling 13 hours for one employee-day. -/
def day13 : List StoredEntry := [sampleRow 8 "REGULAR", sampleRow 5 "SICK"]

/-- A statement that does not create schema but whose text contains
the substring CREATE. -/
def sneakyStmt : String := "SELECT CREATED_AT FROM EMPLOYEES"

/-- A one-row generic store for the update witness. -/
def gRow0 : AList := [("id", JSValue.vstr "ROW1"), ("hours_worked", JSValue.vnum 8)]

def gState0 : GState := ⟨[("timesheet_entries", "ROW1", gRow0)], []⟩

end Timesheet

namespace Timesheet

/-! Basic facts about the calendar model used by the date-window
theorems: moving the year back by one moves the day count back by 365
or 366 days. -/

theorem eraDays_span (z : ℤ) :
    365 ≤ eraDays z - eraDays (z - 1) ∧ eraDays z - eraDays (z - 1) ≤ 366 := by
  unfold eraDays
  omega

theorem daysFromCivil_year_span (y : ℤ) (m d : ℕ) :
    365 ≤ daysFromCivil y m d - daysFromCivil (y - 1) m d ∧
      daysFromCivil y m d - daysFromCivil (y - 1) m d ≤ 366 := by
  unfold daysFromCivil
  by_cases h : m ≤ 2 <;> simp only [h, if_true, if_false, reduceIte] <;>
    [skip; skip] <;>
    first
    | (have h₁ := eraDays_span (y - 1); omega)
    | (have h₂ := eraDays_span y; omega)

/-! ## Claim C1: calculateDailyTotals -/

/-- Claim C1: for every employee id and date, calculateDailyTotals
sums hoursWorked, billableHours, breakHours and the entry count over
that employee's entries for that day, and derives the premium tiers
from the daily total only, ignoring each entry's workType tag:
regular = min(total, 8), overtime = clamp(total - 8, 0, 4),
doubletime = max(0, total - 12); a day totalling 10 hours yields
regular 8, overtime 2, doubletime 0, and a day totalling 13 hours
yields regular 8, overtime 4, doubletime 1. -/
theorem calculateDailyTotals_spec (st : List StoredEntry) (eid date : String)
    (t : DailyTotals) (ht : calculateDailyTotals st eid date = t) :
    t.total_hours =
      ((st.filter (fun r => r.employee_id == eid && r.date == date)).map
        (fun r => r.hours_worked)).sum ∧
    t.total_billable =
      ((st.filter (fun r => r.employee_id == eid && r.date == date)).map
        (fun r => r.billable_hours)).sum ∧
    t.total_breaks =
      ((st.filter (fun r => r.employee_id == eid && r.date == date)).map
        (fun r => r.break_hours)).sum ∧
    t.entry_count = (st.filter (fun r => r.employee_id == eid && r.date == date)).length ∧
    t.regular_hours = some (min t.total_hours 8) ∧
    t.overtime_hours = some (max 0 (min (t.total_hours - 8) 4)) ∧
    t.doubletime_hours = some (max 0 (t.total_hours - 12)) ∧
    (∀ f : StoredEntry → String,
      calculateDailyTotals (st.map (fun r => { r with work_type := f r })) eid date = t) ∧
    (t.total_hours = 10 →
      t.regular_hours = some 8 ∧ t.overtime_hours = some 2 ∧ t.doubletime_hours = some 0) ∧
    (t.total_hours = 13 →
      t.regular_hours = some 8 ∧ t.overtime_hours = some 4 ∧ t.doubletime_hours = some 1) := by
  subst ht
  refine ⟨rfl, rfl, rfl, rfl, rfl, rfl, rfl, ?_, ?_, ?_⟩
  · intro f
    simp [calculateDailyTotals, List.filter_map, List.map_map, Function.comp_def]
  · intro h
    simp only [calculateDailyTotals] at h ⊢
    rw [h]
    norm_num
  · intro h
    simp only [calculateDailyTotals] at h ⊢
    rw [h]
    norm_num

/-- Witness for C1 at two concrete days: the 10-hour day (6 + 4, with
differing work-type tags) and the 13-hour day (8 + 5). -/
theorem calculateDailyTotals_spec_witness :
    (calculateDailyTotals day10 "EMP001" "2024-03-04").regular_hours = some 8 ∧
    (calculateDailyTotals day10 "EMP001" "2024-03-04").overtime_hours = some 2 ∧
    (calculateDailyTotals day10 "EMP001" "2024-03-04").doubletime_hours = some 0 ∧
    (calculateDailyTotals day13 "EMP001" "2024-03-04").regular_hours = some 8 ∧
    (calculateDailyTotals day13 "EMP001" "2024-03-04").overtime_hours = some 4 ∧
    (calculateDailyTotals day13 "EMP001" "2024-03-04").doubletime_hours = some 1 := by
  have h10 :=
    (calculateDailyTotals_spec day10 "EMP001" "2024-03-04" _ rfl).2.2.2.2.2.2.2.2.1
      (by norm_num [calculateDailyTotals, day10, sampleRow])
  have h13 :=
    (calculateDailyTotals_spec day13 "EMP001" "2024-03-04" _ rfl).2.2.2.2.2.2.2.2.2
      (by norm_num [calculateDailyTotals, day13, sampleRow])
  exact ⟨h10.1, h10.2.1, h10.2.2, h13.1, h13.2.1, h13.2.2⟩

/-! ## Claim C3: materialized billableHours -/

/-- Claim C3: every stored entry's billableHours equals hoursWorked
when its cost code refers to a billable CostCode and 0 otherwise,
computed and materialized at write time (rows already stored are
carried over verbatim, and reads return the stored field); with the
seeded cost codes, hoursWorked 8 with a billable code stores
billableHours 8 and with a non-billable code stores 0. -/
theorem insertEntry_billable (codes : List (String × Bool)) (st st2 : List StoredEntry)
    (e : EntryInput) (h : insertEntry codes st e = Except.ok st2) :
    st2 = st ++ [materialize codes e] ∧
    (materialize codes e).billable_hours =
      (if isBillableCode codes e.cost_code then e.hours_worked else 0) ∧
    (materialize codes e).hours_worked = e.hours_worked ∧
    (∀ r ∈ st, r ∈ st2) ∧
    (materialize costCodesData fullEntry).billable_hours = 8 ∧
    (materialize costCodesData fullEntryNB).billable_hours = 0 := by
  simp only [insertEntry] at h
  split at h
  · exact absurd h (by simp)
  · refine ⟨by injection h with h2; exact h2.symm, rfl, rfl, ?_, by rfl, by rfl⟩
    intro r hr
    injection h with h2
    rw [← h2]
    exact List.mem_append_left _ hr

/-- Witness for C3: inserting the billable sample entry into the empty
table succeeds and stores the materialized row. -/
theorem insertEntry_billable_witness :
    [materialize costCodesData fullEntry] = [] ++ [materialize costCodesData fullEntry] ∧
    (materialize costCodesData fullEntry).billable_hours = 8 := by
  have h := insertEntry_billable costCodesData [] [materialize costCodesData fullEntry]
    fullEntry (by rfl)
  exact ⟨h.1, h.2.2.2.2.1⟩

/-! ## Claim C7: reads degrade, writes propagate -/

/-- Claim C7: on any underlying failure the read operations getAll,
getTimesheetEntries, calculateDailyTotals and getById return their
empty or default results (they are total functions and cannot throw),
while the write operations insert, update and delete propagate the
failure to the caller. -/
theorem reads_degrade_writes_propagate :
    (∀ st tbl filters, getAll st tbl filters true = []) ∧
    (∀ st f, getTimesheetEntries st f true = []) ∧
    (∀ st eid date, calculateDailyTotalsSafe st eid date true = emptyTotals) ∧
    (∀ st tbl id, getByIdSafe st tbl id true = none) ∧
    (∀ st tbl data uid auditOk,
      insertRow st tbl data uid true auditOk = Except.error "execution error") ∧
    (∀ st tbl id patch uid ts auditOk,
      updateRow st tbl id patch uid ts true auditOk = Except.error "execution error") ∧
    (∀ st tbl id uid auditOk,
      deleteRow st tbl id uid true auditOk = Except.error "execution error") := by
  refine ⟨fun _ _ _ => rfl, fun _ _ => rfl, fun _ _ _ => rfl, fun _ _ _ => rfl,
    fun _ _ _ _ _ => rfl, fun st tbl id patch uid ts auditOk => ?_, fun _ _ _ _ _ => rfl⟩
  unfold updateRow
  simp

/-! ## Claim C8: audit failure is absorbed -/

/-- Claim C8: for each mutation, a failure of the audit-log append is
absorbed: the business rows and the returned value are identical
whether the audit write succeeds or fails, and the mutation is never
rolled back. -/
theorem audit_failure_absorbed :
    (∀ st tbl data uid execFault,
      Except.map (fun p => (p.1.rows, p.2)) (insertRow st tbl data uid execFault true) =
        Except.map (fun p => (p.1.rows, p.2)) (insertRow st tbl data uid execFault false)) ∧
    (∀ st tbl id patch uid ts execFault,
      Except.map (fun p => (p.1.rows, p.2)) (updateRow st tbl id patch uid ts execFault true) =
        Except.map (fun p => (p.1.rows, p.2)) (updateRow st tbl id patch uid ts execFault false)) ∧
    (∀ st tbl id uid execFault,
      Except.map (fun p => (p.1.rows, p.2)) (deleteRow st tbl id uid execFault true) =
        Except.map (fun p => (p.1.rows, p.2)) (deleteRow st tbl id uid execFault false)) := by
  refine ⟨fun st tbl data uid execFault => ?_, fun st tbl id patch uid ts execFault => ?_,
    fun st tbl id uid execFault => ?_⟩
  · cases execFault
    · simp [insertRow, logAudit, Except.map]
    · rfl
  · cases execFault
    · unfold updateRow
      cases hg : getById st tbl id <;> simp [hg, logAudit, Except.map]
    · rfl
  · cases execFault
    · unfold deleteRow
      cases hg : getById st tbl id <;> simp [hg, logAudit, Except.map]
    · rfl

/-! ## Claim C2: the composite uniqueness key

SQLite treats NULL as distinct from every value inside a UNIQUE index,
so two otherwise-identical rows whose jobId (or workOrderId) is absent
do not collide: the claim's "including when jobId, workOrderId or
workType is absent" fails for the NULL columns.  (An absent workType
is replaced by the column default REGULAR before the index sees it, so
that case does uphold the claim.) -/

/-- Counterexample to C2 as stated: inserting the same entry with an
absent jobId and workOrderId twice succeeds both times, leaving two
rows with identical (employeeId, date, projectId, jobId, workOrderId,
workType) tuples. -/
theorem insertEntry_null_dup_counterexample :
    insertEntry costCodesData [] dupEntry = Except.ok [materialize costCodesData dupEntry] ∧
    insertEntry costCodesData [materialize costCodesData dupEntry] dupEntry =
      Except.ok [materialize costCodesData dupEntry, materialize costCodesData dupEntry] :=
  ⟨rfl, rfl⟩

/-- Claim C2 as amended: when jobId and workOrderId are both present,
re-inserting an identical entry fails with the uniqueness violation;
and every store state reachable by inserts is pairwise free of
UNIQUE-key collisions (at most one row per fully-present key). -/
theorem insertEntry_unique_amended :
    (∀ (codes : List (String × Bool)) (st st2 : List StoredEntry) (e : EntryInput),
      e.job_id.isSome = true → e.work_order_id.isSome = true →
      insertEntry codes st e = Except.ok st2 →
      insertEntry codes st2 e = Except.error "UNIQUE constraint failed: timesheet_entries") ∧
    (∀ (codes : List (String × Bool)) (st : List StoredEntry),
      ReachableEntries codes st → st.Pairwise (fun a b => uniqueConflict a b = false)) := by
  constructor
  · intro codes st st2 e hj hw h
    obtain ⟨a, ha⟩ := Option.isSome_iff_exists.mp hj
    obtain ⟨b, hb⟩ := Option.isSome_iff_exists.mp hw
    have hself : uniqueConflict (materialize codes e) (materialize codes e) = true := by
      simp [uniqueConflict, sqlNullEq, materialize, ha, hb]
    simp only [insertEntry] at h ⊢
    split at h
    · exact absurd h (by simp)
    · injection h with h2
      subst h2
      rw [if_pos]
      simp [List.any_append, hself]
  · intro codes st h
    induction h with
    | nil => exact List.Pairwise.nil
    | ins hre hins ih =>
      rename_i st st2 e
      simp only [insertEntry] at hins
      split at hins
      · exact absurd hins (by simp)
      · rename_i hnoconf
        injection hins with h2
        subst h2
        rw [List.pairwise_append]
        refine ⟨ih, List.pairwise_singleton _ _, ?_⟩
        intro a ha b hb
        simp only [List.mem_singleton] at hb
        subst hb
        simp only [List.any_eq_true, not_exists, not_and] at hnoconf
        have := hnoconf a ha
        simp_all

/-- Witness for the amended C2 at concrete inputs: the fully-keyed
entry collides with itself on re-insert, and a singleton reachable
state is collision-free. -/
theorem insertEntry_unique_amended_witness :
    insertEntry costCodesData [materialize costCodesData fullEntry] fullEntry =
      Except.error "UNIQUE constraint failed: timesheet_entries" ∧
    [materialize costCodesData fullEntry].Pairwise (fun a b => uniqueConflict a b = false) :=
  ⟨insertEntry_unique_amended.1 costCodesData [] _ fullEntry (by rfl) (by rfl) rfl,
   insertEntry_unique_amended.2 costCodesData _
     (ReachableEntries.ins ReachableEntries.nil rfl)⟩

/-! ## Claim C6: update reads first and audits old/new snapshots -/

/-- Claim C6: update(table, id, patch, actor) on an existing row reads
the pre-update row, and on success appends exactly one UPDATE audit
record whose old snapshot is the pre-update row and whose new snapshot
is the pre-update row merged with the patch; it returns whether any
row changed (true when the row exists, false otherwise). -/
theorem update_audit_spec (st : GState) (tbl id : String) (patch : AList)
    (uid : Option String) (ts : String) :
    (∀ old, getById st tbl id = some old →
      updateRow st tbl id patch uid ts false true =
        Except.ok
          ({ rows := st.rows.map (fun p =>
               if p.1 == tbl && p.2.1 == id then (p.1, p.2.1, applyPatchRow old patch ts) else p),
             audit := st.audit ++
               [⟨tbl, id, "UPDATE", some old, some (jsMerge old patch), uid⟩] }, true)) ∧
    (getById st tbl id = none →
      updateRow st tbl id patch uid ts false true = Except.ok (st, false)) := by
  constructor
  · intro old hold
    simp only [updateRow, hold, logAudit]
    rfl
  · intro hnone
    simp only [updateRow, hnone]
    rfl

/-- Witness for C6 at a concrete one-row store: an update of an
existing row and an update of a missing row. -/
theorem update_audit_spec_witness :
    updateRow gState0 "timesheet_entries" "ROW1" [("hours_worked", JSValue.vnum 9)]
        (some "EMP002") "TS1" false true =
      Except.ok
        ({ rows := gState0.rows.map (fun p =>
             if p.1 == "timesheet_entries" && p.2.1 == "ROW1" then
               (p.1, p.2.1, applyPatchRow gRow0 [("hours_worked", JSValue.vnum 9)] "TS1")
             else p),
           audit := gState0.audit ++
             [⟨"timesheet_entries", "ROW1", "UPDATE", some gRow0,
               some (jsMerge gRow0 [("hours_worked", JSValue.vnum 9)]), some "EMP002"⟩] }, true) ∧
    updateRow gState0 "timesheet_entries" "MISSING" [("hours_worked", JSValue.vnum 9)]
        (some "EMP002") "TS1" false true = Except.ok (gState0, false) :=
  ⟨(update_audit_spec gState0 "timesheet_entries" "ROW1" [("hours_worked", JSValue.vnum 9)]
      (some "EMP002") "TS1").1 gRow0 rfl,
   (update_audit_spec gState0 "timesheet_entries" "MISSING" [("hours_worked", JSValue.vnum 9)]
      (some "EMP002") "TS1").2 rfl⟩

/-! ## Claim C9: the initialization gate of execute

The code exempts any statement whose text contains the substring
CREATE (sql.includes('CREATE')), not only statements that create
schema, so a non-schema statement mentioning CREATE slips through the
gate. -/

/-- Counterexample to C9 as stated: while the store is uninitialized,
a SELECT that does not create schema but mentions CREATED_AT is not
failed by the gate — it reaches the underlying store and succeeds. -/
theorem execute_gate_counterexample :
    createsSchemaSpec sneakyStmt = false ∧
    executeStmt false sneakyStmt (Except.ok []) = Except.ok [] := by
  refine ⟨by decide, ?_⟩
  have h : includesStr sneakyStmt "CREATE" = true := by decide
  simp [executeStmt, h]

/-- Claim C9 as amended: while uninitialized, execute fails with the
not-initialized error exactly unless the statement text contains the
substring CREATE (in which case the underlying result is returned
unchanged); once initialized, the underlying result — in particular
any underlying failure — always propagates to the caller. -/
theorem execute_gate_amended :
    (∀ (sql : String) (u : Except String (List AList)),
      includesStr sql "CREATE" = false →
      executeStmt false sql u = Except.error "Database not initialized") ∧
    (∀ (sql : String) (u : Except String (List AList)),
      includesStr sql "CREATE" = true → executeStmt false sql u = u) ∧
    (∀ (sql : String) (u : Except String (List AList)), executeStmt true sql u = u) := by
  refine ⟨fun sql u h => by simp [executeStmt, h], fun sql u h => by simp [executeStmt, h],
    fun sql u => by simp [executeStmt]⟩

/-- Witness for the amended C9: the health-check SELECT is gated while
uninitialized, and a CREATE TABLE statement passes through. -/
theorem execute_gate_amended_witness :
    executeStmt false "SELECT 1 as health" (Except.ok []) =
      Except.error "Database not initialized" ∧
    executeStmt false "CREATE TABLE business_units (code TEXT PRIMARY KEY)" (Except.ok []) =
      Except.ok [] :=
  ⟨execute_gate_amended.1 _ _ (by rfl), execute_gate_amended.2.1 _ _ (by rfl)⟩

/-! ## Claim C4: the break-hours validator

The silent normalization to 0 applies only to non-numeric input.  A
negative value (directly numeric, or parsed from a string) survives
the coercions and hits the negativity check, which pushes the error
"Break hours cannot be negative" and leaves the sanitized value
negative — so the claim's "invalid or negative input is silently
normalized to 0 with no error raised" fails for negative input. -/

theorem round2_zero : round2 0 = 0 := by
  with_unfolding_all decide

set_option maxHeartbeats 2000000 in
/-- Counterexample to C4 as stated: validating a timesheet_entry whose
breakHours is -1 contributes the negativity error (making the result
invalid) and sanitizes breakHours to -1, not 0. -/
theorem validateBreakHours_counterexample :
    ("Break hours cannot be negative" ∈
      (validate clk0 "timesheet_entry" [("breakHours", JSValue.vnum (-1))]).errors) ∧
    getField (validate clk0 "timesheet_entry" [("breakHours", JSValue.vnum (-1))]).sanitized
        "breakHours" = JSValue.vnum (-1) ∧
    (validate clk0 "timesheet_entry" [("breakHours", JSValue.vnum (-1))]).isValid = false := by
  refine ⟨?_, ?_, ?_⟩ <;> with_unfolding_all decide

/-- Claim C4 as amended: non-numeric breakHours input (not a number,
and unparsable when a string) is silently normalized to 0 with no
error; input that is negative after the 2-decimal rounding instead
produces the error "Break hours cannot be negative" and keeps the
negative sanitized value. -/
theorem validateBreakHours_amended :
    (∀ v : JSValue, nonNumericBreakInput v = true →
      validateBreakHours v = ⟨true, [], [], JSValue.vnum 0⟩) ∧
    (∀ q : ℚ, round2 q < 0 →
      validateBreakHours (JSValue.vnum q) =
        ⟨false, ["Break hours cannot be negative"], [], JSValue.vnum (round2 q)⟩) := by
  have hne : ¬ (0 : ℚ) < 0 := by norm_num
  have hng : ¬ (0 : ℚ) > 4 := by norm_num
  have hnonnum : ∀ v : JSValue, nonNumericBreakInput v = true →
      numericOrZero (breakSan v) = 0 := by
    intro v hv
    cases v with
    | vnum q => simp [nonNumericBreakInput] at hv
    | vstr s =>
      simp only [nonNumericBreakInput, Option.isNone_iff_eq_none] at hv
      simp [breakSan, breakStrCoerce, hv, numericOrZero]
    | vbool b => cases b <;> simp [breakSan, jsOrZero, truthy, numericOrZero]
    | vundefined => simp [breakSan, jsOrZero, truthy, numericOrZero]
    | vnull => simp [breakSan, jsOrZero, truthy, numericOrZero]
    | vnan => simp [breakSan, jsOrZero, truthy, numericOrZero]
    | vobj => simp [breakSan, jsOrZero, truthy, numericOrZero]
  have hnum : ∀ q : ℚ, numericOrZero (breakSan (JSValue.vnum q)) = q := by
    intro q
    by_cases h : q = 0
    · subst h
      simp [breakSan, jsOrZero, truthy, numericOrZero]
    · simp [breakSan, jsOrZero, truthy, numericOrZero, h]
  constructor
  · intro v hv
    simp only [validateBreakHours, hnonnum v hv, round2_zero]
    rw [if_neg hne, if_neg hng]
    rfl
  · intro q h
    have h4 : ¬ round2 q > 4 := by linarith
    simp only [validateBreakHours, hnum q]
    rw [if_pos h, if_neg h4]
    rfl

/-- Witness for the amended C4: an unparsable string normalizes to 0
with no error, and -2 produces the negativity error with sanitized
value -2. -/
theorem validateBreakHours_amended_witness :
    validateBreakHours (JSValue.vstr "abc") = ⟨true, [], [], JSValue.vnum 0⟩ ∧
    validateBreakHours (JSValue.vnum (-2)) =
      ⟨false, ["Break hours cannot be negative"], [], JSValue.vnum (-2)⟩ := by
  constructor
  · exact validateBreakHours_amended.1 (JSValue.vstr "abc") (by with_unfolding_all decide)
  · have h2 : round2 (-2 : ℚ) = -2 := by with_unfolding_all decide
    have h := validateBreakHours_amended.2 (-2) (by with_unfolding_all decide)
    rw [h2] at h
    exact h

/-! ## Claim C5: the date validator -/

/-- Every error message validateDate can produce. -/
theorem validateDate_errors_sub (c : Clock) (v : JSValue) :
    ∀ e ∈ (validateDate c v).errors,
      e ∈ ["Date must be a string", "Date must be in YYYY-MM-DD format", "Invalid date",
           "Date cannot be more than one year in the past",
           "Date cannot be more than 30 days in the future"] := by
  intro e he
  cases v with
  | vstr s0 =>
    simp only [validateDate] at he
    cases hp : parseYMD s0.trim with
    | none =>
      simp only [validateDateStr, hp, List.mem_singleton] at he
      simp [he]
    | some ymd =>
      obtain ⟨y, m, d⟩ := ymd
      simp only [validateDateStr, hp] at he
      by_cases hv : isValidYMD y m d = true
      · rw [if_pos hv] at he
        simp only [dateValidRes, dateWindowErrors, List.mem_append] at he
        rcases he with he | he <;> split_ifs at he <;>
          simp only [List.mem_singleton, List.not_mem_nil] at he <;> simp [he]
      · rw [if_neg hv] at he
        simp only [List.mem_singleton] at he
        simp [he]
  | vundefined => simp only [validateDate, List.mem_singleton] at he; simp [he]
  | vnull => simp only [validateDate, List.mem_singleton] at he; simp [he]
  | vbool b => simp only [validateDate, List.mem_singleton] at he; simp [he]
  | vnum q => simp only [validateDate, List.mem_singleton] at he; simp [he]
  | vnan => simp only [validateDate, List.mem_singleton] at he; simp [he]
  | vobj => simp only [validateDate, List.mem_singleton] at he; simp [he]

/-- validateDate on a string whose trimmed form parses to a real
date. -/
theorem validateDate_eval (c : Clock) (s : String) (y : ℤ) (m d : ℕ)
    (hp : parseYMD s.trim = some (y, m, d)) (hv : isValidYMD y m d = true) :
    validateDate c (JSValue.vstr s) = dateValidRes c y m d s.trim := by
  simp only [validateDate, validateDateStr, hp]
  rw [if_pos hv]

/-- Claim C5: for every string input to the date validator, a value
not in strict YYYY-MM-DD format or unparsable is an error; a date more
than 365 days in the past is an error (in particular exactly 366 days
before the current date, the current instant lying strictly after
midnight); 31 days in the future is an error while 30 days ahead is
not; and a weekend date produces a warning only, never an error. -/
theorem validateDate_window_spec (c : Clock) (h0 : 0 ≤ c.tod) (h1 : c.tod < mspd) :
    (∀ v : JSValue, isStringV v = false →
      (validateDate c v).errors = ["Date must be a string"]) ∧
    (∀ s : String, parseYMD s.trim = none →
      (validateDate c (JSValue.vstr s)).errors = ["Date must be in YYYY-MM-DD format"]) ∧
    (∀ (s : String) (y : ℤ) (m d : ℕ), parseYMD s.trim = some (y, m, d) →
      isValidYMD y m d = false →
      (validateDate c (JSValue.vstr s)).errors = ["Invalid date"]) ∧
    (0 < c.tod → ∀ (s : String) (y : ℤ) (m d : ℕ), parseYMD s.trim = some (y, m, d) →
      isValidYMD y m d = true → nowDays c - daysFromCivil y m d = 366 →
      "Date cannot be more than one year in the past" ∈
        (validateDate c (JSValue.vstr s)).errors) ∧
    (∀ (s : String) (y : ℤ) (m d : ℕ), parseYMD s.trim = some (y, m, d) →
      isValidYMD y m d = true → daysFromCivil y m d - nowDays c = 31 →
      "Date cannot be more than 30 days in the future" ∈
        (validateDate c (JSValue.vstr s)).errors) ∧
    (∀ (s : String) (y : ℤ) (m d : ℕ), parseYMD s.trim = some (y, m, d) →
      isValidYMD y m d = true → daysFromCivil y m d - nowDays c = 30 →
      (validateDate c (JSValue.vstr s)).errors = []) ∧
    (∀ v : JSValue, "Date falls on a weekend" ∉ (validateDate c v).errors) ∧
    (∀ (s : String) (y : ℤ) (m d : ℕ), parseYMD s.trim = some (y, m, d) →
      isValidYMD y m d = true →
      ("Date falls on a weekend" ∈ (validateDate c (JSValue.vstr s)).warnings ↔
        dayOfWeek (daysFromCivil y m d) = 0 ∨ dayOfWeek (daysFromCivil y m d) = 6)) := by
  refine ⟨?_, ?_, ?_, ?_, ?_, ?_, ?_, ?_⟩
  · intro v hv
    cases v <;> simp_all [validateDate, isStringV]
  · intro s hp
    simp [validateDate, validateDateStr, hp]
  · intro s y m d hp hv
    simp only [validateDate, validateDateStr, hp]
    rw [if_neg (by simp [hv])]
  · intro htod s y m d hp hv hdiff
    rw [validateDate_eval c s y m d hp hv]
    have hspan := daysFromCivil_year_span c.y c.m c.d
    have hlt : daysFromCivil y m d * mspd < oneYearAgoMs c := by
      simp only [nowDays] at hdiff
      simp only [oneYearAgoMs, mspd] at *
      omega
    simp only [dateValidRes, dateWindowErrors]
    rw [if_pos hlt]
    simp
  · intro s y m d hp hv hdiff
    rw [validateDate_eval c s y m d hp hv]
    have hgt : daysFromCivil y m d * mspd > thirtyAheadMs c := by
      simp only [nowDays] at hdiff
      simp only [thirtyAheadMs, nowMs, nowDays, mspd] at *
      omega
    simp only [dateValidRes, dateWindowErrors]
    rw [if_pos hgt]
    simp
  · intro s y m d hp hv hdiff
    rw [validateDate_eval c s y m d hp hv]
    have hspan := daysFromCivil_year_span c.y c.m c.d
    have hnp : ¬ daysFromCivil y m d * mspd < oneYearAgoMs c := by
      simp only [nowDays] at hdiff
      simp only [oneYearAgoMs, mspd] at *
      omega
    have hnf : ¬ daysFromCivil y m d * mspd > thirtyAheadMs c := by
      simp only [nowDays] at hdiff
      simp only [thirtyAheadMs, nowMs, nowDays, mspd] at *
      omega
    simp only [dateValidRes, dateWindowErrors]
    rw [if_neg hnp, if_neg hnf]
    rfl
  · intro v hmem
    exact absurd (validateDate_errors_sub c v _ hmem) (by decide)
  · intro s y m d hp hv
    rw [validateDate_eval c s y m d hp hv]
    simp only [dateValidRes, dateWeekendWarns]
    split_ifs with hw
    · simpa using hw
    · simpa using hw

set_option maxRecDepth 4096 in
/-- Witness for C5 at the instant 2025-10-11 noon UTC: 2024-10-10 is
366 days back (error), 2025-11-11 is 31 days ahead (error), 2025-11-10
is 30 days ahead (no error), and 2025-10-11 itself is a Saturday
(weekend warning). -/
theorem validateDate_window_spec_witness :
    ("Date cannot be more than one year in the past" ∈
      (validateDate ⟨2025, 10, 11, 43200000⟩ (JSValue.vstr "2024-10-10")).errors) ∧
    ("Date cannot be more than 30 days in the future" ∈
      (validateDate ⟨2025, 10, 11, 43200000⟩ (JSValue.vstr "2025-11-11")).errors) ∧
    (validateDate ⟨2025, 10, 11, 43200000⟩ (JSValue.vstr "2025-11-10")).errors = [] ∧
    ("Date falls on a weekend" ∈
      (validateDate ⟨2025, 10, 11, 43200000⟩ (JSValue.vstr "2025-10-11")).warnings) := by
  have H := validateDate_window_spec ⟨2025, 10, 11, 43200000⟩ (by decide) (by decide)
  refine ⟨H.2.2.2.1 (by decide) "2024-10-10" 2024 10 10 (by with_unfolding_all decide)
      (by decide) (by decide),
    H.2.2.2.2.1 "2025-11-11" 2025 11 11 (by with_unfolding_all decide)
      (by decide) (by decide),
    H.2.2.2.2.2.1 "2025-11-10" 2025 11 10 (by with_unfolding_all decide)
      (by decide) (by decide),
    (H.2.2.2.2.2.2.2 "2025-10-11" 2025 10 11 (by with_unfolding_all decide)
      (by decide)).mpr (by decide)⟩

/-! ## Claim C10: falsy-based required checks -/

/-- Membership in the required-field errors. -/
theorem mem_requiredErrors (rules : Rules) (data : AList) (msg : String) :
    msg ∈ requiredErrors rules data ↔
      ∃ f ∈ rules.required, truthy (getField data f) = false ∧
        msg = formatFieldName f ++ " is required" := by
  simp only [requiredErrors, List.mem_filterMap]
  constructor
  · rintro ⟨f, hf, hsome⟩
    by_cases ht : truthy (getField data f) = true
    · rw [if_pos ht] at hsome
      exact absurd hsome (by simp)
    · rw [if_neg ht] at hsome
      refine ⟨f, hf, by simpa using ht, ?_⟩
      injection hsome with h
      exact h.symm
  · rintro ⟨f, hf, ht, rfl⟩
    refine ⟨f, hf, ?_⟩
    rw [if_neg (by simp [ht])]

/-- Writing a different key leaves a field unchanged. -/
theorem getField_setField_ne (d : AList) (g : String) (v : JSValue) (f : String)
    (h : (g == f) = false) : getField (setField d g v) f = getField d f := by
  unfold setField
  split
  · unfold getField
    rw [List.find?_map]
    have hpred : ((fun p : String × JSValue => p.1 == f) ∘
        fun p : String × JSValue => if p.1 == g then (p.1, v) else p) =
        fun p : String × JSValue => p.1 == f := by
      funext p
      by_cases hp : (p.1 == g) = true <;> simp [Function.comp, hp]
    rw [hpred]
    cases hfind : d.find? (fun p => p.1 == f) with
    | none => rfl
    | some p =>
      have hpf := List.find?_some hfind
      simp only [] at hpf
      have hpg : (p.1 == g) = false := by
        have h1 : p.1 = f := by simpa using hpf
        have h2 : g ≠ f := by simpa using h
        subst h1
        simp
        exact fun hh => h2 hh.symm
      have hne3 : p.1 ≠ g := by simpa using hpg
      simp [hne3]
  · unfold getField
    rw [List.find?_append]
    cases hfind : d.find? (fun p => p.1 == f) with
    | none => simp [List.find?, h]
    | some p => simp

/-- A field whose value makes the guard skip its validator is never
overwritten by the field-validator loop. -/
theorem runValidators_preserve (data0 : AList)
    (vals : List (String × (JSValue → Except Unit ValidatorResult))) (f : String)
    (hs : skipVal (getField data0 f) = true) :
    ∀ (es ws : List String) (san : AList) (res : List String × List String × AList),
      getField san f = getField data0 f →
      runValidators data0 vals es ws san = Except.ok res →
      getField res.2.2 f = getField data0 f := by
  induction vals with
  | nil =>
    intro es ws san res hsan h
    simp only [runValidators] at h
    injection h with h2
    rw [← h2]
    exact hsan
  | cons gv rest ih =>
    obtain ⟨g, vf⟩ := gv
    intro es ws san res hsan h
    simp only [runValidators] at h
    by_cases hskip : skipVal (getField data0 g) = true
    · rw [if_pos hskip] at h
      exact ih es ws san res hsan h
    · rw [if_neg hskip] at h
      cases hv : vf (getField data0 g) with
      | error e =>
        rw [hv] at h
        exact absurd h (by simp)
      | ok r =>
        rw [hv] at h
        have hgf : (g == f) = false := by
          have hne2 : g ≠ f := fun hEq => hskip (hEq ▸ hs)
          simpa using hne2
        refine ih _ _ _ res ?_ h
        rw [getField_setField_ne san g r.sanitized f hgf]
        exact hsan

set_option maxRecDepth 4096 in
set_option maxHeartbeats 2000000 in
/-- Claim C10: the required-field check treats a field as missing
exactly when its value is falsy, producing the error "Field is
required"; validating a timesheet_entry whose hoursWorked is 0 (a
value inside the documented range) is invalid with the error
"Hours Worked is required"; and the per-field validators are skipped
for null, undefined and empty-string values, leaving the field's
sanitized value untouched. -/
theorem validate_required_spec :
    (∀ (c : Clock) (ty : String) (rules : Rules), rulesFor c ty = some rules →
      ∀ (data : AList) (f : String), f ∈ rules.required →
        ((formatFieldName f ++ " is required") ∈ requiredErrors rules data ↔
          truthy (getField data f) = false)) ∧
    ((validate clk0 "timesheet_entry" [("hoursWorked", JSValue.vnum 0)]).isValid = false ∧
      "Hours Worked is required" ∈
        (validate clk0 "timesheet_entry" [("hoursWorked", JSValue.vnum 0)]).errors) ∧
    (∀ (c : Clock) (ty : String) (data : AList) (f : String),
      skipVal (getField data f) = true →
      getField (validate c ty data).sanitized f = getField data f) := by
  refine ⟨?_, ⟨?_, ?_⟩, ?_⟩
  · intro c ty rules hr data f hf
    have hinj : ∀ a ∈ rules.required, ∀ b ∈ rules.required,
        formatFieldName a ++ " is required" = formatFieldName b ++ " is required" → a = b := by
      unfold rulesFor at hr
      split_ifs at hr <;>
        (injection hr with h; subst h
         simp only [employeeRules, timesheetRules, projectRules]
         with_unfolding_all decide)
    constructor
    · intro hmem
      obtain ⟨g, hg, ht, heq⟩ := (mem_requiredErrors rules data _).mp hmem
      have hfg := hinj f hf g hg heq
      rw [hfg]
      exact ht
    · intro ht
      exact (mem_requiredErrors rules data _).mpr ⟨f, hf, ht, rfl⟩
  · with_unfolding_all decide
  · with_unfolding_all decide
  · intro c ty data f hs
    cases hr : rulesFor c ty with
    | none => simp [validate, hr]
    | some rules =>
      simp only [validate, hr, validateKnown]
      cases hrun : runValidators data rules.validators [] [] data with
      | error e => simp [hrun]
      | ok res =>
        simp only [hrun, validateAggregate]
        exact runValidators_preserve data rules.validators f hs [] [] data res rfl hrun

/-- Witness for C10: hoursWorked 0 (falsy) is reported missing for the
timesheet_entry kind, and a null date is left untouched by the
validator loop. -/
theorem validate_required_spec_witness :
    ("Hours Worked is required" ∈
      requiredErrors (timesheetRules clk0) [("hoursWorked", JSValue.vnum 0)]) ∧
    getField (validate clk0 "timesheet_entry" [("date", JSValue.vnull)]).sanitized "date" =
      JSValue.vnull := by
  constructor
  · exact (validate_required_spec.1 clk0 "timesheet_entry" (timesheetRules clk0)
      (by with_unfolding_all rfl) [("hoursWorked", JSValue.vnum 0)] "hoursWorked"
      (by with_unfolding_all decide)).mpr (by with_unfolding_all decide)
  · have h := validate_required_spec.2.2 clk0 "timesheet_entry" [("date", JSValue.vnull)]
      "date" (by with_unfolding_all decide)
    rw [h]
    with_unfolding_all decide

end Timesheet
